import Mathlib

/-!
Shallow embedding of `src/robots/controllers/cartesian_impedance_control.py`
(class `CustomCartesianImpedanceControl`), a Cartesian-space impedance
controller.  Joint vectors are `Fin n → ℚ` where `n` is the robot's DOF,
Cartesian 3-vectors are `Fin 3 → ℚ`, wrenches/twists are `Fin 6 → ℚ`, and
quaternions are a four-field structure.  The robot model
(`forward_kinematics`, `compute_jacobian`, `inverse_dynamics`) is an external
collaborator and is embedded as an abstract structure of functions.
-/

namespace CartesianImpedance

/-- Cartesian 3-vector (position, linear or angular velocity). -/
abbrev V3 := Fin 3 → ℚ

/-- Cartesian 6-vector (twist or wrench: linear stacked before angular). -/
abbrev V6 := Fin 6 → ℚ

/-- Unit-quaternion orientation, stored as real part `w` and vector part
`x, y, z`. -/
structure Quat where
  w : ℚ
  x : ℚ
  y : ℚ
  z : ℚ
  deriving DecidableEq

/-- Hamilton product of two quaternions. -/
def quatMul (a b : Quat) : Quat :=
  { w := a.w * b.w - a.x * b.x - a.y * b.y - a.z * b.z
    x := a.w * b.x + a.x * b.w + a.y * b.z - a.z * b.y
    y := a.w * b.y - a.x * b.z + a.y * b.w + a.z * b.x
    z := a.w * b.z + a.x * b.y - a.y * b.x + a.z * b.w }

/-- Quaternion conjugate; for a unit quaternion this is its inverse. -/
def quatConj (a : Quat) : Quat :=
  { w := a.w, x := -a.x, y := -a.y, z := -a.z }

/-- Componentwise negation: `-q` represents the same rotation as `q`
(double cover). -/
def quatNeg (a : Quat) : Quat :=
  { w := -a.w, x := -a.x, y := -a.y, z := -a.z }

/-- Modelled from the spec: the manifold-consistent orientation error of
the Cartesian PD module (the module itself, `torchcontrol`
`CartesianSpacePDFast`, is an external library whose code is not in `src/`).
Per the spec, the error is the relative rotation
`delta_q = quat_des * inverse(quat_cur)` converted to a 3-vector as twice
its vector part, pointing from current toward desired. -/
def orientationError (quat_des quat_cur : Quat) : V3 :=
  let d := quatMul quat_des (quatConj quat_cur)
  ![2 * d.x, 2 * d.y, 2 * d.z]

/-- Modelled from the spec: the stateless Cartesian-space PD wrench law of
`torchcontrol.modules.feedback.CartesianSpacePDFast` (external library code,
not in `src/`).  Position error is ordinary subtraction, orientation error is
`orientationError`, the 6-dimensional pose error stacks them linear-first,
twist error is desired minus current, and the wrench is
`Kp * pose_error + Kd * twist_error`. -/
def cartesianSpacePDFast (Kp Kd : Matrix (Fin 6) (Fin 6) ℚ)
    (pos_current : V3) (quat_current : Quat) (twist_current : V6)
    (pos_desired : V3) (quat_desired : Quat) (twist_desired : V6) : V6 :=
  let pos_error := pos_desired - pos_current
  let ori_error := orientationError quat_desired quat_current
  let pose_error : V6 := Fin.append pos_error ori_error
  let twist_error := twist_desired - twist_current
  Kp.mulVec pose_error + Kd.mulVec twist_error

/-- External robot model contract (`torchcontrol.models`): forward
kinematics, geometric Jacobian (6 × DOF, mapping joint velocities to an
end-effector twist), and inverse dynamics with an `ignore_gravity` flag. -/
structure RobotModel (n : ℕ) where
  forward_kinematics : (Fin n → ℚ) → V3 × Quat
  compute_jacobian : (Fin n → ℚ) → Matrix (Fin 6) (Fin n) ℚ
  inverse_dynamics : (Fin n → ℚ) → (Fin n → ℚ) → (Fin n → ℚ) → Bool → (Fin n → ℚ)

/-- Modelled from the spec: `torchcontrol.modules.feedforward.InverseDynamics`
(external library code, not in `src/`) wraps the robot model's inverse
dynamics, with the `ignore_gravity` flag fixed at construction of the
module. -/
def inverseDynamics (robot_model : RobotModel n) (ignore_gravity : Bool)
    (joint_pos joint_vel joint_acc : Fin n → ℚ) : Fin n → ℚ :=
  robot_model.inverse_dynamics joint_pos joint_vel joint_acc ignore_gravity

/-- State of a `CustomCartesianImpedanceControl` policy object: the injected
robot model, the Cartesian gains, the gravity flag captured by the
inverse-dynamics module, and the mutable desired target (pose and
velocities). -/
structure CustomCartesianImpedanceControl (n : ℕ) where
  robot_model : RobotModel n
  Kp : Matrix (Fin 6) (Fin 6) ℚ
  Kd : Matrix (Fin 6) (Fin 6) ℚ
  ignore_gravity : Bool
  ee_pos_desired : V3
  ee_quat_desired : Quat
  ee_vel_desired : V3
  ee_rvel_desired : V3

/-- A robot-model operation invoked during construction or a tick
(instrumentation of the calls the Python code makes on `self.robot_model`). -/
inductive RMCall (n : ℕ) where
  | forward_kinematics (joint_pos : Fin n → ℚ)
  | compute_jacobian (joint_pos : Fin n → ℚ)
  | inverse_dynamics (joint_pos joint_vel : Fin n → ℚ)

/-- `CustomCartesianImpedanceControl.__init__`, instrumented with the list of
robot-model operations it performs.  The Python constructor always evaluates
`self.robot_model.forward_kinematics(joint_pos_current)` first and only then
tests whether `ee_pos_desired` / `ee_quat_desired` were supplied (`None`
checks); desired velocities are initialized to `torch.zeros(3)`. -/
def initT (joint_pos_current : Fin n → ℚ) (Kp Kd : Matrix (Fin 6) (Fin 6) ℚ)
    (robot_model : RobotModel n) (ignore_gravity : Bool)
    (ee_pos_desired : Option V3) (ee_quat_desired : Option Quat) :
    CustomCartesianImpedanceControl n × List (RMCall n) :=
  let fk := robot_model.forward_kinematics joint_pos_current
  ({ robot_model := robot_model
     Kp := Kp
     Kd := Kd
     ignore_gravity := ignore_gravity
     ee_pos_desired := ee_pos_desired.getD fk.1
     ee_quat_desired := ee_quat_desired.getD fk.2
     ee_vel_desired := 0
     ee_rvel_desired := 0 },
   [RMCall.forward_kinematics joint_pos_current])

/-- `CustomCartesianImpedanceControl.__init__`: the constructed policy. -/
def init (joint_pos_current : Fin n → ℚ) (Kp Kd : Matrix (Fin 6) (Fin 6) ℚ)
    (robot_model : RobotModel n) (ignore_gravity : Bool)
    (ee_pos_desired : Option V3) (ee_quat_desired : Option Quat) :
    CustomCartesianImpedanceControl n :=
  (initT joint_pos_current Kp Kd robot_model ignore_gravity
    ee_pos_desired ee_quat_desired).1

/-- `update_desired_ee_pose`: reassigns the two desired-pose attributes,
leaving every other attribute alone. -/
def update_desired_ee_pose (p : CustomCartesianImpedanceControl n)
    (ee_pos_desired : V3) (ee_quat_desired : Quat) :
    CustomCartesianImpedanceControl n :=
  { p with ee_pos_desired := ee_pos_desired, ee_quat_desired := ee_quat_desired }

/-- Input dictionary of a tick: `state_dict["joint_positions"]` and
`state_dict["joint_velocities"]`. -/
structure StateDict (n : ℕ) where
  joint_positions : Fin n → ℚ
  joint_velocities : Fin n → ℚ

/-- Output dictionary of a tick: `{"joint_torques": torque_out}`. -/
structure Output (n : ℕ) where
  joint_torques : Fin n → ℚ

/-- `CustomCartesianImpedanceControl.forward`, transcribed line by line:
current pose from forward kinematics, Jacobian, current twist
`jacobian @ joint_vel_current`, PD wrench against the held desired target
(desired twist is `torch.cat` of linear and angular desired velocities),
feedback torque `jacobian.T @ wrench`, feedforward torque from inverse
dynamics at zero desired acceleration, and their sum. -/
def forward (p : CustomCartesianImpedanceControl n) (state_dict : StateDict n) :
    Output n :=
  let joint_pos_current := state_dict.joint_positions
  let joint_vel_current := state_dict.joint_velocities
  let fk := p.robot_model.forward_kinematics joint_pos_current
  let ee_pos_current := fk.1
  let ee_quat_current := fk.2
  let jacobian := p.robot_model.compute_jacobian joint_pos_current
  let ee_twist_current := jacobian.mulVec joint_vel_current
  let wrench_feedback :=
    cartesianSpacePDFast p.Kp p.Kd ee_pos_current ee_quat_current
      ee_twist_current p.ee_pos_desired p.ee_quat_desired
      (Fin.append p.ee_vel_desired p.ee_rvel_desired)
  let torque_feedback := jacobian.transpose.mulVec wrench_feedback
  let torque_feedforward :=
    inverseDynamics p.robot_model p.ignore_gravity joint_pos_current
      joint_vel_current 0
  let torque_out := torque_feedback + torque_feedforward
  { joint_torques := torque_out }

/-- Method-call semantics of `forward`: a Python method receives `self` and
may mutate it; the body of `forward` contains no assignment to `self`, so the
post-state is the unchanged policy object. -/
def forwardM (p : CustomCartesianImpedanceControl n) (state_dict : StateDict n) :
    Output n × CustomCartesianImpedanceControl n :=
  (forward p state_dict, p)

/-- A shape error raised by a tensor operation (torch raises these inside
the operation whose operand shapes disagree). -/
inductive TensorError where
  | shapeMismatch
  deriving DecidableEq

/-- A robot-model operation invoked during a tick, recorded with its raw
(dynamically-shaped) joint-vector arguments. -/
inductive RMDynCall where
  | forward_kinematics (joint_pos : List ℚ)
  | compute_jacobian (joint_pos : List ℚ)
  | inverse_dynamics (joint_pos joint_vel : List ℚ)
  deriving DecidableEq

/-- Shape-observing semantics of `forward` on raw (list-shaped) inputs,
returning the robot-model operations invoked together with the result.
The Python body performs no validation of its own: it immediately calls
`forward_kinematics` on `joint_positions`, so a length mismatch surfaces as a
shape error raised inside the robot-model call (when `joint_positions` has
the wrong length) or at the `jacobian @ joint_velocities` product (when
`joint_velocities` has the wrong length, after `forward_kinematics` and
`compute_jacobian` have already run); only with both lengths equal to the
DOF does the tick reach inverse dynamics and produce a torque output. -/
def forwardDynT (p : CustomCartesianImpedanceControl n)
    (joint_pos joint_vel : List ℚ) :
    List RMDynCall × Except TensorError (List ℚ) :=
  if hq : joint_pos.length = n then
    if hv : joint_vel.length = n then
      ([RMDynCall.forward_kinematics joint_pos,
        RMDynCall.compute_jacobian joint_pos,
        RMDynCall.inverse_dynamics joint_pos joint_vel],
       Except.ok (List.ofFn
         (forward p
           { joint_positions := fun i => joint_pos.get (Fin.cast hq.symm i)
             joint_velocities := fun i => joint_vel.get (Fin.cast hv.symm i) }).joint_torques))
    else
      ([RMDynCall.forward_kinematics joint_pos,
        RMDynCall.compute_jacobian joint_pos],
       Except.error TensorError.shapeMismatch)
  else
    ([RMDynCall.forward_kinematics joint_pos],
     Except.error TensorError.shapeMismatch)

/-- A concrete one-DOF robot model used to evaluate the controller at
concrete inputs. -/
def rmConst : RobotModel 1 where
  forward_kinematics := fun _ => (0, { w := 1, x := 0, y := 0, z := 0 })
  compute_jacobian := fun _ => 0
  inverse_dynamics := fun _ _ _ _ => 0

/-- A concrete policy over `rmConst` with default target and zero gains. -/
def pConst : CustomCartesianImpedanceControl 1 :=
  init (fun _ => 0) 0 0 rmConst true none none

/-- C1: for every state dictionary with joint positions `q` and joint
velocities `v`, `forward` returns joint torques equal to
`Jacobian(q)ᵀ * wrench + inverse_dynamics(q, v, 0)`, where the wrench is the
Cartesian PD output computed from `forward_kinematics(q)`, the twist
`Jacobian(q) * v`, the held desired position/orientation, and the
concatenated desired linear/angular velocities; the feedforward is invoked
with the zero desired-acceleration vector and the policy's `ignore_gravity`
flag, which was fixed at construction. -/
theorem forward_control_law (p : CustomCartesianImpedanceControl n)
    (q v : Fin n → ℚ) :
    (forward p { joint_positions := q, joint_velocities := v }).joint_torques =
      (p.robot_model.compute_jacobian q).transpose.mulVec
        (cartesianSpacePDFast p.Kp p.Kd
          (p.robot_model.forward_kinematics q).1
          (p.robot_model.forward_kinematics q).2
          ((p.robot_model.compute_jacobian q).mulVec v)
          p.ee_pos_desired p.ee_quat_desired
          (Fin.append p.ee_vel_desired p.ee_rvel_desired))
      + p.robot_model.inverse_dynamics q v 0 p.ignore_gravity := rfl

/-- C3: when `ee_pos_desired` (respectively `ee_quat_desired`) is omitted,
the constructor initializes it from forward kinematics of the initial joint
positions, so the initial target equals the initial measured pose; and in
every construction the desired linear and angular velocities are initialized
to the zero 3-vector. -/
theorem init_default_target (joint_pos_current : Fin n → ℚ)
    (Kp Kd : Matrix (Fin 6) (Fin 6) ℚ) (rm : RobotModel n) (ig : Bool) :
    (∀ oq : Option Quat,
      (init joint_pos_current Kp Kd rm ig none oq).ee_pos_desired =
        (rm.forward_kinematics joint_pos_current).1)
    ∧ (∀ op : Option V3,
      (init joint_pos_current Kp Kd rm ig op none).ee_quat_desired =
        (rm.forward_kinematics joint_pos_current).2)
    ∧ (∀ (op : Option V3) (oq : Option Quat),
      (init joint_pos_current Kp Kd rm ig op oq).ee_vel_desired = 0
      ∧ (init joint_pos_current Kp Kd rm ig op oq).ee_rvel_desired = 0) :=
  ⟨fun _ => rfl, fun _ => rfl, fun _ _ => ⟨rfl, rfl⟩⟩

/-- C4: `update_desired_ee_pose` replaces the desired position and desired
orientation with the given values and leaves the desired linear and angular
velocities unchanged. -/
theorem update_desired_ee_pose_spec (p : CustomCartesianImpedanceControl n)
    (pos : V3) (quat : Quat) :
    (update_desired_ee_pose p pos quat).ee_pos_desired = pos
    ∧ (update_desired_ee_pose p pos quat).ee_quat_desired = quat
    ∧ (update_desired_ee_pose p pos quat).ee_vel_desired = p.ee_vel_desired
    ∧ (update_desired_ee_pose p pos quat).ee_rvel_desired = p.ee_rvel_desired :=
  ⟨rfl, rfl, rfl, rfl⟩

/-- C5: a tick leaves every field of the policy unchanged — desired
position/orientation, desired linear/angular velocities, both gain matrices,
and the `ignore_gravity` configuration; indeed the post-state of the method
call is the policy itself. -/
theorem forward_preserves_policy (p : CustomCartesianImpedanceControl n)
    (sd : StateDict n) :
    (forwardM p sd).2.ee_pos_desired = p.ee_pos_desired
    ∧ (forwardM p sd).2.ee_quat_desired = p.ee_quat_desired
    ∧ (forwardM p sd).2.ee_vel_desired = p.ee_vel_desired
    ∧ (forwardM p sd).2.ee_rvel_desired = p.ee_rvel_desired
    ∧ (forwardM p sd).2.Kp = p.Kp
    ∧ (forwardM p sd).2.Kd = p.Kd
    ∧ (forwardM p sd).2.ignore_gravity = p.ignore_gravity
    ∧ (forwardM p sd).2 = p :=
  ⟨rfl, rfl, rfl, rfl, rfl, rfl, rfl, rfl⟩

/-- C10: every construction invokes `forward_kinematics` on the initial
joint positions, whatever the optional desired position and orientation
arguments are — in particular even when both are explicitly supplied. -/
theorem init_always_invokes_fk (joint_pos_current : Fin n → ℚ)
    (Kp Kd : Matrix (Fin 6) (Fin 6) ℚ) (rm : RobotModel n) (ig : Bool)
    (op : Option V3) (oq : Option Quat) :
    (initT joint_pos_current Kp Kd rm ig op oq).2 =
      [RMCall.forward_kinematics joint_pos_current] := rfl

lemma orientationError_self (q : Quat) : orientationError q q = 0 := by
  funext i
  fin_cases i <;> simp [orientationError, quatMul, quatConj] <;> ring

lemma orientationError_self_neg (q : Quat) :
    orientationError q (quatNeg q) = 0 := by
  funext i
  fin_cases i <;> simp [orientationError, quatMul, quatConj, quatNeg] <;> ring

lemma append_zero_zero : Fin.append (0 : V3) (0 : V3) = (0 : V6) := by
  funext i
  fin_cases i <;> rfl

/-- C7: when the current pose equals the desired pose and both twists are
zero the PD wrench is exactly the zero 6-vector; the orientation-error term
vanishes both when `quat_cur = quat_des` and in the double-cover case
`quat_cur = -quat_des`, which represents the same rotation, so the wrench is
zero in that case as well. -/
theorem pd_wrench_zero_at_target (Kp Kd : Matrix (Fin 6) (Fin 6) ℚ)
    (pos : V3) (quat : Quat) :
    cartesianSpacePDFast Kp Kd pos quat 0 pos quat 0 = 0
    ∧ orientationError quat quat = 0
    ∧ orientationError quat (quatNeg quat) = 0
    ∧ cartesianSpacePDFast Kp Kd pos (quatNeg quat) 0 pos quat 0 = 0 := by
  refine ⟨?_, orientationError_self quat, orientationError_self_neg quat, ?_⟩
  · unfold cartesianSpacePDFast
    simp [orientationError_self, append_zero_zero, Matrix.mulVec_zero]
  · unfold cartesianSpacePDFast
    simp [orientationError_self_neg, append_zero_zero, Matrix.mulVec_zero]

/-- C6: for a policy constructed with zero gain matrices the
Jacobian-transpose projection of the PD wrench is the zero torque vector
(whatever the pose and twist arguments), and the tick output on any joint
state reduces to the inverse-dynamics feedforward alone. -/
theorem forward_zero_gains (joint_pos_current : Fin n → ℚ)
    (rm : RobotModel n) (ig : Bool) (op : Option V3) (oq : Option Quat)
    (q v : Fin n → ℚ) :
    (∀ (pc : V3) (qc : Quat) (tc : V6) (pd : V3) (qd : Quat) (td : V6),
      (rm.compute_jacobian q).transpose.mulVec
        (cartesianSpacePDFast 0 0 pc qc tc pd qd td) = 0)
    ∧ (forward (init joint_pos_current 0 0 rm ig op oq)
        { joint_positions := q, joint_velocities := v }).joint_torques =
      rm.inverse_dynamics q v 0 ig := by
  constructor
  · intro pc qc tc pd qd td
    unfold cartesianSpacePDFast
    simp [Matrix.zero_mulVec, Matrix.mulVec_zero]
  · unfold forward init initT inverseDynamics cartesianSpacePDFast
    simp [Matrix.zero_mulVec, Matrix.mulVec_zero]

/-- C8: updating the desired pose and then ticking gives exactly the tick of
a policy that held that desired pose from construction — the next tick
computes its error against the new target, with no staleness. -/
theorem update_then_forward (joint_pos_current : Fin n → ℚ)
    (Kp Kd : Matrix (Fin 6) (Fin 6) ℚ) (rm : RobotModel n) (ig : Bool)
    (op : Option V3) (oq : Option Quat) (pos : V3) (quat : Quat)
    (sd : StateDict n) :
    forward (update_desired_ee_pose
        (init joint_pos_current Kp Kd rm ig op oq) pos quat) sd =
      forward (init joint_pos_current Kp Kd rm ig (some pos) (some quat)) sd :=
  rfl

/-- C2 counterexample: on a joint-position vector of length 2 fed to a 1-DOF
policy, the tick does not fail before the Robot Model is consulted — the
trace of robot-model operations is not empty but contains the
`forward_kinematics` call on the mismatched vector, because the body of
`forward` performs no shape validation of its own. -/
theorem forward_shape_check_cex :
    List.length [(0 : ℚ), 0] ≠ 1
    ∧ (forwardDynT pConst [(0 : ℚ), 0] [(0 : ℚ)]).1 =
        [RMDynCall.forward_kinematics [(0 : ℚ), 0]] :=
  ⟨by decide, rfl⟩

/-- C2 amended: on any length mismatch of joint positions or joint
velocities the tick fails with a shape-mismatch error and emits no torque
output, but the failure arises inside the Robot Model pipeline — the first
robot-model operation, `forward_kinematics` on the raw joint-position
vector, is always invoked before the failure. -/
theorem forward_shape_mismatch (p : CustomCartesianImpedanceControl n)
    (joint_pos joint_vel : List ℚ)
    (h : joint_pos.length ≠ n ∨ joint_vel.length ≠ n) :
    (forwardDynT p joint_pos joint_vel).2 =
        Except.error TensorError.shapeMismatch
    ∧ (forwardDynT p joint_pos joint_vel).1.head? =
        some (RMDynCall.forward_kinematics joint_pos) := by
  unfold forwardDynT
  by_cases hq : joint_pos.length = n
  · have hv : ¬ joint_vel.length = n := by
      rcases h with h | h
      · exact absurd hq h
      · exact h
    rw [dif_pos hq, dif_neg hv]
    exact ⟨rfl, rfl⟩
  · rw [dif_neg hq]
    exact ⟨rfl, rfl⟩

/-- Witness for the amended C2 theorem at a concrete mismatched input. -/
theorem forward_shape_mismatch_witness :
    (forwardDynT pConst [(0 : ℚ), 0, 0] [(0 : ℚ)]).2 =
        Except.error TensorError.shapeMismatch
    ∧ (forwardDynT pConst [(0 : ℚ), 0, 0] [(0 : ℚ)]).1.head? =
        some (RMDynCall.forward_kinematics [(0 : ℚ), 0, 0]) :=
  forward_shape_mismatch pConst [(0 : ℚ), 0, 0] [(0 : ℚ)] (Or.inl (by decide))

end CartesianImpedance
